import Mathlib

/-!
Verification development for the `lnurl-server` of the bitkit-docker
repository: a shallow embedding of the challenge/session lifecycle engine
(withdraw, pay, channel and auth flows, settlement reconciler) together
with proofs and refutations of the specification claims.

Conventions of the embedding:
* JavaScript strings that may be `undefined` are modelled as `Option String`;
  JS truthiness of such a value (`undefined`/`''` are falsy) is `jsTruthy`.
* The sqlite tables are modelled as Lean lists of records; each SQL statement
  of `database.js` becomes a pure function on those lists.
* Outbound LND calls are modelled as `Except String α` parameters of the
  request handlers (the value the awaited promise resolves or rejects with).
* Handlers additionally report the list of keys they looked up in the store
  (`reads`), so that "no store round-trip" properties are expressible.
-/

/-! ## JavaScript primitives -/

/-- JS truthiness of an optional string: `undefined` and `""` are falsy. -/
def jsTruthy : Option String → Bool
  | none => false
  | some s => s ≠ ""

/-- ASCII hexadecimal digit, as in the regex class `[a-fA-F0-9]`. -/
def isHexChar (c : Char) : Bool :=
  (('0' ≤ c) && (c ≤ '9')) || (('a' ≤ c) && (c ≤ 'f')) || (('A' ≤ c) && (c ≤ 'F'))

/-- ASCII alphanumeric character, as in the regex class `[a-zA-Z0-9]`. -/
def isAlnumChar (c : Char) : Bool :=
  (('0' ≤ c) && (c ≤ '9')) || (('a' ≤ c) && (c ≤ 'z') && ('a' ≤ c)) ||
    (('A' ≤ c) && (c ≤ 'Z'))

/-- Value of a list of decimal digits. -/
def digitsVal (digits : List Char) : Nat :=
  digits.foldl (fun acc c => acc * 10 + (c.toNat - '0'.toNat)) 0

/-- JavaScript `parseInt` in base 10: skip whitespace, optional sign, then the
longest prefix of decimal digits; `none` models `NaN` (no digits found). -/
def jsParseInt (s : String) : Option Int :=
  let t := s.data.dropWhile Char.isWhitespace
  let (sign, rest) :=
    match t with
    | '-' :: cs => ((-1 : Int), cs)
    | '+' :: cs => ((1 : Int), cs)
    | cs => ((1 : Int), cs)
  let digits := rest.takeWhile Char.isDigit
  if digits.isEmpty then none
  else some (sign * (digitsVal digits : Int))

/-! ## `utils/validation.js` -/

/-- `Validation.isValidK1`: the argument is a string matching
`/^[a-fA-F0-9]{64}$/` (falsy values are rejected first). -/
def isValidK1 : Option String → Bool
  | none => false
  | some s => s ≠ "" && s.length == 64 && s.data.all isHexChar

/-- `Validation.isValidPaymentRequest`: matches `/^ln(bc|tb|rt)[a-zA-Z0-9]+$/`. -/
def isValidPaymentRequest : Option String → Bool
  | none => false
  | some s =>
    match s.data with
    | 'l' :: 'n' :: c₁ :: c₂ :: rest =>
      ((c₁ == 'b' && c₂ == 'c') || (c₁ == 't' && c₂ == 'b') ||
        (c₁ == 'r' && c₂ == 't')) &&
      decide (1 ≤ rest.length) && rest.all isAlnumChar
    | _ => false

/-- `Validation.isValidAmount`: `parseInt` of the raw query value does not
yield `NaN` and is strictly positive. -/
def isValidAmount (amount : Option String) : Bool :=
  match amount with
  | none => false
  | some s =>
    match jsParseInt s with
    | none => false
    | some n => 0 < n

/-- `Validation.isAmountInRange` applied to an already-numeric amount
(`parseInt` of an integer value is the identity). -/
def isAmountInRange (amount mn mx : Int) : Bool :=
  mn ≤ amount && amount ≤ mx

/-- `Validation.isValidRemoteId`: matches `/^0[23][a-fA-F0-9]{64}$/`. -/
def isValidRemoteId : Option String → Bool
  | none => false
  | some s =>
    match s.data with
    | '0' :: c :: rest =>
      (c == '2' || c == '3') && rest.length == 64 && rest.all isHexChar
    | _ => false

/-- `Validation.isValidPaymentId`: nonempty hex string. -/
def isValidPaymentId : Option String → Bool
  | none => false
  | some s => s ≠ "" && decide (1 ≤ s.length) && s.data.all isHexChar

/-- `Validation.isValidComment`: falsy comments are valid, otherwise the
length must not exceed the configured maximum. -/
def isValidComment (comment : Option String) (maxLength : Nat) : Bool :=
  match comment with
  | none => true
  | some c => if c = "" then true else decide (c.length ≤ maxLength)

/-- `Validation.isValidBoolean`: `undefined`, `'0'` and `'1'` are accepted
(the JS `true`/`false` cases cannot arrive from a query string). -/
def isValidBoolean (value : Option String) : Bool :=
  match value with
  | none => true
  | some s => s == "0" || s == "1"

/-- `Validation.validateHexString` from the refactored validation module:
truthy hex string, with an optional exact-length requirement (a zero
expected length is falsy in JS and therefore not enforced). -/
def validateHexString (hex : Option String) (expectedLength : Option Nat) : Bool :=
  match hex with
  | none => false
  | some s =>
    if s = "" then false
    else if !(decide (1 ≤ s.length) && s.data.all isHexChar) then false
    else
      match expectedLength with
      | none => true
      | some n => if n ≠ 0 && s.length ≠ n then false else true

/-- Configured limits (`config.js`). -/
def minWithdrawable : Int := 1000
/-- Configured maximum withdrawable amount (`config.js`). -/
def maxWithdrawable : Int := 100000000
/-- Configured minimum sendable amount (`config.js`). -/
def minSendable : Int := 1000
/-- Configured maximum sendable amount (`config.js`). -/
def maxSendable : Int := 1000000000
/-- Configured maximum comment length (`config.js`). -/
def commentAllowed : Nat := 255
/-- Configured auth challenge TTL in milliseconds (`config.js`). -/
def k1Expiry : Nat := 300000
/-- Configured auth session TTL in milliseconds (`config.js`). -/
def sessionExpiry : Nat := 3600000

/-- `Validation.validateChannelRequest`. -/
def validateChannelRequest (k1 remoteid isPrivate cancel : Option String) :
    List String :=
  if cancel = some "1" then
    (if !isValidK1 k1 then ["Invalid k1 parameter"] else [])
  else
    (if !isValidK1 k1 then ["Invalid k1 parameter"] else []) ++
    (if !isValidRemoteId remoteid then ["Invalid remoteid parameter"] else []) ++
    (if jsTruthy isPrivate && !isValidBoolean isPrivate then
      ["Invalid private parameter"] else [])

/-- `Validation.validateWithdrawCallback`. -/
def validateWithdrawCallback (k1 pr : Option String) : List String :=
  (if !isValidK1 k1 then ["Invalid k1 parameter"] else []) ++
  (if !isValidPaymentRequest pr then ["Invalid payment request"] else [])

/-- `Validation.validatePayCallback`. -/
def validatePayCallback (amount comment : Option String) : List String :=
  (if !isValidAmount amount then ["Invalid amount parameter"] else []) ++
  (if jsTruthy comment && !isValidComment comment commentAllowed then
    ["Comment too long"] else [])

/-! ## Withdraw flow (`database.js`, `routes/withdraw.js`) -/

/-- One row of the `withdrawals` table. -/
structure Withdrawal where
  id : String
  k1 : String
  amountSats : Int
  used : Bool
  deriving Repr, DecidableEq

/-- `db.getWithdrawal`: `SELECT * FROM withdrawals WHERE k1 = ? AND used = 0`. -/
def getWithdrawal (store : List Withdrawal) (k1 : String) : Option Withdrawal :=
  store.find? (fun w => w.k1 == k1 && w.used == false)

/-- `db.updateWithdrawal`:
`UPDATE withdrawals SET used = 1, amount_sats = ? WHERE k1 = ?` —
note the update is unconditional on the previous `used` state. -/
def updateWithdrawal (store : List Withdrawal) (k1 : String) (amountSats : Int) :
    List Withdrawal :=
  store.map (fun w => if w.k1 == k1 then { w with used := true, amountSats := amountSats } else w)

/-- Response of the withdraw callback. -/
inductive WResp where
  /-- `res.json({ status: 'OK' })` -/
  | ok
  /-- a `ValidationError` reported by the error middleware -/
  | validationError (reason : String)
  /-- a generic error (`Payment failed: ...`) reported by the error middleware -/
  | payError (reason : String)
  deriving Repr, DecidableEq

/-- Part of the withdraw callback that runs after the stored row has been
read: decode the invoice, check the amount bounds, pay, and only then mark
the withdrawal used.  `decodeResult` and `payResult` are the outcomes of the
two awaited LND calls. -/
def withdrawRedeemPhase (store : List Withdrawal) (k1 : String)
    (decodeResult : Except String Int) (payResult : Except String Unit) :
    List Withdrawal × WResp :=
  match decodeResult with
  | .error e => (store, .payError ("Payment failed: " ++ e))
  | .ok amt =>
    if !isAmountInRange amt minWithdrawable maxWithdrawable then
      (store, .payError "Payment failed: Amount out of range (1000 - 100000000 sats)")
    else
      match payResult with
      | .error e => (store, .payError ("Payment failed: " ++ e))
      | .ok _ => (updateWithdrawal store k1 amt, .ok)

/-- Result of a request handler over the withdrawals table: new table state,
HTTP response, and the keys read from the store. -/
structure WOut where
  store : List Withdrawal
  resp : WResp
  reads : List String
  deriving Repr, DecidableEq

/-- The withdraw callback handler (`routes/withdraw.js`): validate the query
parameters, read the unused withdrawal row, then run the redeem phase. -/
def withdrawCallback (store : List Withdrawal) (k1 pr : Option String)
    (decodeResult : Except String Int) (payResult : Except String Unit) : WOut :=
  let errs := validateWithdrawCallback k1 pr
  if errs ≠ [] then
    ⟨store, .validationError (String.intercalate ", " errs), []⟩
  else
    let key := k1.getD ""
    match getWithdrawal store key with
    | none => ⟨store, .validationError "Invalid or used k1", [key]⟩
    | some _ =>
      let (store', resp) := withdrawRedeemPhase store key decodeResult payResult
      ⟨store', resp, [key]⟩

/-- Two redemption requests for the same `k1`, interleaved at the store
suspension points exactly as the non-blocking server allows: both requests
pass validation and both `await db.getWithdrawal(k1)` against the initial
table before either reaches its `await db.updateWithdrawal`; afterwards the
first request runs its remaining awaits to completion, then the second does.
Returns the final table and the two responses. -/
def withdrawTwoInterleaved (store : List Withdrawal) (k1 pr : Option String)
    (decode₁ : Except String Int) (pay₁ : Except String Unit)
    (decode₂ : Except String Int) (pay₂ : Except String Unit) :
    List Withdrawal × WResp × WResp :=
  let errs := validateWithdrawCallback k1 pr
  if errs ≠ [] then
    let e := WResp.validationError (String.intercalate ", " errs)
    (store, e, e)
  else
    let key := k1.getD ""
    match getWithdrawal store key with
    | none =>
      -- both reads observe the same initial table
      (store, .validationError "Invalid or used k1", .validationError "Invalid or used k1")
    | some _ =>
      let (s₁, r₁) := withdrawRedeemPhase store key decode₁ pay₁
      let (s₂, r₂) := withdrawRedeemPhase s₁ key decode₂ pay₂
      (s₂, r₁, r₂)

/-! ## Channel flow (`database.js`, `routes/channel.js`, `server.js`) -/

/-- One row of the `channel_requests` table.  The `private` column is named
`isPrivate` because `private` is reserved in Lean. -/
structure ChannelRequest where
  id : String
  k1 : String
  remoteId : Option String
  isPrivate : Bool
  cancelled : Bool
  completed : Bool
  deriving Repr, DecidableEq

/-- `db.getChannelRequest`:
`SELECT * FROM channel_requests WHERE k1 = ? AND completed = 0 AND cancelled = 0`. -/
def getChannelRequest (store : List ChannelRequest) (k1 : String) :
    Option ChannelRequest :=
  store.find? (fun c => c.k1 == k1 && c.completed == false && c.cancelled == false)

/-- `db.updateChannelRequest`:
`UPDATE channel_requests SET remote_id = ?, private = ? WHERE k1 = ?`. -/
def updateChannelRequest (store : List ChannelRequest) (k1 remoteId : String)
    (isPrivate : Bool) : List ChannelRequest :=
  store.map (fun c =>
    if c.k1 == k1 then { c with remoteId := some remoteId, isPrivate := isPrivate } else c)

/-- `db.cancelChannelRequest`:
`UPDATE channel_requests SET cancelled = 1 WHERE k1 = ?`. -/
def cancelChannelRequest (store : List ChannelRequest) (k1 : String) :
    List ChannelRequest :=
  store.map (fun c => if c.k1 == k1 then { c with cancelled := true } else c)

/-- Modelled from the spec: `db.completeChannelRequest` is called by the
channel callback but is missing from the copy of `database.js` at hand; per
§3 of the spec it performs the `collected → completed` transition, i.e. the
analogue of `UPDATE channel_requests SET completed = 1 WHERE k1 = ?`. -/
def completeChannelRequest (store : List ChannelRequest) (k1 : String) :
    List ChannelRequest :=
  store.map (fun c => if c.k1 == k1 then { c with completed := true } else c)

/-- Response of the channel callback. -/
inductive CResp where
  /-- `res.json({ status: 'OK' })` -/
  | ok
  /-- `{ status: 'ERROR', reason }` (thrown `ValidationError` or direct json) -/
  | err (reason : String)
  deriving Repr, DecidableEq

/-- Result of a channel-callback handler: new table, response, keys read. -/
structure COut where
  store : List ChannelRequest
  resp : CResp
  reads : List String
  deriving Repr, DecidableEq

/-- The modular channel callback (`routes/channel.js`): validation first,
then the store read; on a non-cancel request the remote id is recorded
(`collected`), the channel open is attempted, and only a successful open is
followed by `completeChannelRequest` — an open failure is merely logged and
the callback still answers OK. -/
def routeChannelCallback (store : List ChannelRequest)
    (k1 remoteid isPrivate cancel : Option String)
    (openResult : Except String Unit) : COut :=
  let errs := validateChannelRequest k1 remoteid isPrivate cancel
  if errs ≠ [] then
    ⟨store, .err (String.intercalate ", " errs), []⟩
  else
    let key := k1.getD ""
    match getChannelRequest store key with
    | none => ⟨store, .err "Invalid or used k1", [key]⟩
    | some _ =>
      if cancel = some "1" then
        ⟨cancelChannelRequest store key, .ok, [key]⟩
      else
        let privateFlag := isPrivate = some "1"
        let s₁ := updateChannelRequest store key (remoteid.getD "") privateFlag
        match openResult with
        | .ok _ => ⟨completeChannelRequest s₁ key, .ok, [key]⟩
        | .error _ => ⟨s₁, .ok, [key]⟩   -- failure is logged, response still OK

/-- The monolithic channel callback (`server.js`, `/channel/callback`): no
parameter validation at all — the handler goes straight to the store lookup,
then branches on `cancel` and on the presence of `remoteid`; it never
attempts an open and never sets `completed`. -/
def serverChannelCallback (store : List ChannelRequest)
    (k1 remoteid isPrivate cancel : Option String) : COut :=
  let key := k1.getD ""
  match getChannelRequest store key with
  | none => ⟨store, .err "Invalid or used k1", [key]⟩
  | some _ =>
    if cancel = some "1" then
      ⟨cancelChannelRequest store key, .ok, [key]⟩
    else if !jsTruthy remoteid then
      ⟨store, .err "Missing remoteid parameter", [key]⟩
    else
      let privateFlag := isPrivate = some "1"
      ⟨updateChannelRequest store key (remoteid.getD "") privateFlag, .ok, [key]⟩

/-! ## Pay flow and settlement (`database.js`, `routes/pay.js`, `server.js`) -/

/-- One row of the `payments` table (an issued invoice record). -/
structure Payment where
  id : String
  amountSats : Int
  description : String
  paymentHash : String
  paid : Bool
  comment : Option String
  deriving Repr, DecidableEq

/-- `db.getPayment`: `SELECT * FROM payments WHERE id = ?`. -/
def getPayment (store : List Payment) (id : String) : Option Payment :=
  store.find? (fun p => p.id == id)

/-- `db.updatePaymentPaid`: `UPDATE payments SET paid = 1 WHERE id = ?`. -/
def updatePaymentPaid (store : List Payment) (id : String) : List Payment :=
  store.map (fun p => if p.id == id then { p with paid := true } else p)

/-- `db.getUnpaidPayments`: `SELECT * FROM payments WHERE paid = 0`. -/
def getUnpaidPayments (store : List Payment) : List Payment :=
  store.filter (fun p => p.paid == false)

/-- `db.createPayment`: insert a fresh unpaid invoice record. -/
def createPayment (store : List Payment) (id : String) (amountSats : Int)
    (description paymentHash : String) (comment : Option String) : List Payment :=
  store ++ [⟨id, amountSats, description, paymentHash, false, comment⟩]

/-- The invoice object returned by `lndService.createInvoice`, reduced to the
fields the handler stores and returns (`payment_request`, and the payment
hash already extracted as hex). -/
structure LnInvoice where
  paymentRequest : String
  paymentHash : String
  deriving Repr, DecidableEq

/-- Response of the pay callback. -/
inductive PayResp where
  /-- `res.json({ pr, routes: [] })` -/
  | pr (paymentRequest : String)
  /-- a `ValidationError` (HTTP 400) from `validatePayCallback` -/
  | validationError (reason : String)
  /-- a non-validation failure (invoice creation failed, HTTP 500) -/
  | upstreamError (reason : String)
  deriving Repr, DecidableEq

/-- The pay callback (`routes/pay.js` `/:paymentId/callback`): validate amount
and comment, convert msat to sat with `Math.floor`, create the invoice via
LND, store an unpaid record under a fresh id, return the encoded invoice. -/
def payCallback (store : List Payment) (paymentId : String)
    (amount comment : Option String)
    (invoiceResult : Except String LnInvoice) (freshId : String) :
    List Payment × PayResp :=
  let errs := validatePayCallback amount comment
  if errs ≠ [] then
    (store, .validationError (String.intercalate ", " errs))
  else
    let amountMsat := (jsParseInt (amount.getD "")).getD 0  -- some by validation
    let amountSats := Int.fdiv amountMsat 1000              -- Math.floor(x / 1000)
    match invoiceResult with
    | .error e => (store, .upstreamError ("Invoice creation failed: " ++ e))
    | .ok inv =>
      -- the memo sent to the node includes the comment; the stored
      -- description is always `LNURL Payment <paymentId>`
      (createPayment store freshId amountSats ("LNURL Payment " ++ paymentId)
        inv.paymentHash (if jsTruthy comment then comment else none),  -- comment || null
       .pr inv.paymentRequest)

/-- One row of the `payment_configs` table. -/
structure PaymentConfig where
  paymentId : String
  minSendable : Int
  maxSendable : Int
  commentAllowed : Int
  deriving Repr, DecidableEq

/-- `db.createPaymentConfig`: `INSERT OR REPLACE INTO payment_configs ...` —
the row keyed by `payment_id` is replaced if it already exists. -/
def createPaymentConfig (store : List PaymentConfig) (paymentId : String)
    (mn mx ca : Int) : List PaymentConfig :=
  store.filter (fun c => c.paymentId ≠ paymentId) ++ [⟨paymentId, mn, mx, ca⟩]

/-- The Lightning-Address resolution handler
(`routes/well-known.js`, `/.well-known/lnurlp/:username`): the payment id is
the hex sha256 of the username (`hash` abstracts that pure digest function),
and the payment config for it is upserted with the configured bounds and a
comment limit of 100.  Returns the new table and the payment id used in the
callback URL. -/
def wellKnownLnurlp (store : List PaymentConfig) (username : String)
    (hash : String → String) : List PaymentConfig × String :=
  let paymentId := hash username
  (createPaymentConfig store paymentId minSendable maxSendable 100, paymentId)

/-! ## Settlement reconciler (`services/backgroundJobs.js`, `server.js`) -/

/-- One iteration of the reconciler loop body for a single unpaid record:
query the invoice by payment hash and mark the record paid when the node
reports it settled.  `settled` is the node's answer per payment hash;
`none` models a failed `getInvoice` call, which is logged and skipped. -/
def settleStep (settled : String → Option Bool) (store : List Payment)
    (p : Payment) : List Payment :=
  if settled p.paymentHash = some true then updatePaymentPaid store p.id else store

/-- `checkSettledInvoices`: list the unpaid records, then for each one query
the node and mark it paid when settled.  The iteration runs over the list of
unpaid rows fetched at the start of the pass. -/
def checkSettledInvoices (store : List Payment)
    (settled : String → Option Bool) : List Payment :=
  (getUnpaidPayments store).foldl (settleStep settled) store

/-- The payment status endpoint (`server.js`, `/payment/:paymentId/status`):
an already-paid record is reported as paid without touching the node; an
unpaid record is checked against the node and marked paid exactly when the
node reports it settled; a failed node query reports `paid: false`.
Returns the new table and the reported paid flag (`none` for a 404). -/
def paymentStatus (store : List Payment) (paymentId : String)
    (settled : String → Option Bool) : List Payment × Option Bool :=
  match getPayment store paymentId with
  | none => (store, none)
  | some p =>
    if p.paid then (store, some true)
    else
      match settled p.paymentHash with
      | some true => (updatePaymentPaid store paymentId, some true)
      | some false => (store, some false)
      | none => (store, some false)

/-! ## Auth flow (`routes/auth.js`) -/

/-- One stored auth challenge.

Modelled from the spec: the auth tables and their accessors
(`createAuthChallenge`, `getAuthChallenge`, `useAuthChallenge`,
`createAuthSession`) are called by `routes/auth.js` but the database module
defining them is missing from the sources at hand; per §3/§4.5 of the spec a
Challenge carries its action, an expiry timestamp (creation + fixed TTL) and
a consumption state. -/
structure AuthChallenge where
  k1 : String
  action : String
  used : Bool
  expiresAt : Nat
  deriving Repr, DecidableEq

/-- One stored auth session (created only after a verified signature). -/
structure AuthSession where
  id : String
  linkingKey : String
  action : String
  expiresAt : Nat
  deriving Repr, DecidableEq

/-- Modelled from the spec: `database.createAuthChallenge` persists a fresh
unused challenge whose expiry is the creation time plus the configured TTL. -/
def createAuthChallenge (store : List AuthChallenge) (k1 action : String)
    (now : Nat) : List AuthChallenge :=
  store ++ [⟨k1, action, false, now + k1Expiry⟩]

/-- Modelled from the spec: `database.getAuthChallenge` loads the challenge
by `k1` and fails (returns nothing) if it is absent, already consumed, or
past its expiry; it performs no mutation. -/
def getAuthChallenge (store : List AuthChallenge) (k1 : String) (now : Nat) :
    Option AuthChallenge :=
  store.find? (fun c => c.k1 == k1 && c.used == false && decide (now < c.expiresAt))

/-- Modelled from the spec: `database.useAuthChallenge` marks the challenge
consumed, so that a second verification with any signature thereafter fails. -/
def useAuthChallenge (store : List AuthChallenge) (k1 : String) :
    List AuthChallenge :=
  store.map (fun c => if c.k1 == k1 then { c with used := true } else c)

/-- Modelled from the spec: `database.createAuthSession` persists a session
bound to the linking key and the challenge's action, with its own TTL. -/
def createAuthSession (store : List AuthSession) (id key action : String)
    (now : Nat) : List AuthSession :=
  store ++ [⟨id, key, action, now + sessionExpiry⟩]

/-- The valid auth actions (`routes/auth.js`). -/
def validActions : List String := ["register", "login", "link", "auth"]

/-- Auth tables: challenges and sessions. -/
structure AuthState where
  challenges : List AuthChallenge
  sessions : List AuthSession
  deriving Repr, DecidableEq

/-- Response of `GET /auth`. -/
inductive AResp where
  /-- verification succeeded: session id, linking key, action -/
  | ok (sessionId linkingKey action : String)
  /-- `{ status: 'ERROR', reason }` -/
  | err (reason : String)
  /-- a freshly minted challenge: its `k1` and action -/
  | challenge (k1 action : String)
  deriving Repr, DecidableEq

/-- Result of the auth handler: new tables, response, challenge keys read. -/
structure AOut where
  state : AuthState
  resp : AResp
  reads : List String
  deriving Repr, DecidableEq

/-- `GET /auth` (`routes/auth.js`): if `k1`, `sig` and `key` are all truthy
the handler verifies the signature — hex-format checks, challenge lookup,
DER import (`secp256k1.signatureImport`, `derImport`), ECDSA verification
(`secp256k1.ecdsaVerify`, `ecdsaVerify`), and only on success consumes the
challenge and creates a session under `freshSession`.  Otherwise a new
challenge under `freshK1` is minted for the requested (default `login`)
action.  The two secp256k1 operations are pure functions of their byte
inputs and are passed as parameters. -/
def authGet (st : AuthState) (k1 sig key action : Option String) (now : Nat)
    (derImport : String → Option (List Nat))
    (ecdsaVerify : List Nat → String → String → Bool)
    (freshK1 freshSession : String) : AOut :=
  if jsTruthy k1 && jsTruthy sig && jsTruthy key then
    if !(validateHexString k1 (some 64) && validateHexString sig none &&
        validateHexString key (some 66)) then
      ⟨st, .err "Invalid hex format for k1, sig, or key", []⟩
    else
      let k1s := k1.getD ""
      match getAuthChallenge st.challenges k1s now with
      | none => ⟨st, .err "Invalid or expired k1", [k1s]⟩
      | some ch =>
        match derImport (sig.getD "") with
        | none => ⟨st, .err "Invalid DER signature", [k1s]⟩
        | some compactSig =>
          if !ecdsaVerify compactSig k1s (key.getD "") then
            ⟨st, .err "Invalid signature", [k1s]⟩
          else
            ⟨⟨useAuthChallenge st.challenges k1s,
              createAuthSession st.sessions freshSession (key.getD "") ch.action now⟩,
             .ok freshSession (key.getD "") ch.action, [k1s]⟩
  else
    -- generate a new challenge (even if k1 is provided but sig/key are missing)
    let challengeAction := if jsTruthy action then action.getD "" else "login"
    if !validActions.contains challengeAction then
      ⟨st, .err "Invalid action parameter", []⟩
    else
      ⟨⟨createAuthChallenge st.challenges freshK1 challengeAction now, st.sessions⟩,
       .challenge freshK1 challengeAction, []⟩

/-! ## Helper lemmas -/

/-- After `updateWithdrawal` every row with the given `k1` is marked used, so
the `used = 0` lookup finds nothing. -/
lemma getWithdrawal_updateWithdrawal (s : List Withdrawal) (k : String) (a : Int) :
    getWithdrawal (updateWithdrawal s k a) k = none := by
  apply List.find?_eq_none.mpr
  intro w hw
  simp only [updateWithdrawal, List.mem_map] at hw
  obtain ⟨w₀, _, rfl⟩ := hw
  by_cases h : w₀.k1 = k <;> simp [h]

/-- Sample 64-character hex nonce used in concrete scenarios. -/
def sampleK1 : String :=
  "aaaaaaaaaaaaaaaaaaaaaaaaaaaaaaaaaaaaaaaaaaaaaaaaaaaaaaaaaaaaaaaa"

/-- Sample unused withdrawal row. -/
def sampleWithdrawal : Withdrawal := ⟨"w1", sampleK1, 0, false⟩

/-! ## C1 -/

/-- C1, counterexample: a minted withdraw challenge redeemed by two requests
that interleave at the store suspension points (both perform the
`getWithdrawal` read before either performs the `updateWithdrawal` write)
yields TWO successful redemptions, refuting both "exactly one
claim/redemption call succeeds ... including when two redemption attempts
... are interleaved" and the asserted read-and-transition atomicity: the
check and the transition are separate store statements. -/
theorem C1_counterexample :
    (withdrawTwoInterleaved [sampleWithdrawal] (some sampleK1) (some "lnbc1")
        (.ok 5000) (.ok ()) (.ok 5000) (.ok ())).2 = (WResp.ok, WResp.ok) := by
  decide

/-- C1, amended: sequentially — when one redemption request runs to
completion before the next starts — exactly one redemption succeeds: after a
successful callback, any subsequent callback with the same `k1` (and a
well-formed invoice) fails with "Invalid or used k1" and leaves the store
unchanged.  (The unused-check and the used-transition are nevertheless two
separate store operations, so this holds only without interleaving, as the
counterexample shows.) -/
theorem C1_amended (store : List Withdrawal) (k1 pr : Option String)
    (d₁ : Except String Int) (p₁ : Except String Unit)
    (d₂ : Except String Int) (p₂ : Except String Unit)
    (hok : (withdrawCallback store k1 pr d₁ p₁).resp = .ok) :
    (withdrawCallback (withdrawCallback store k1 pr d₁ p₁).store k1 pr d₂ p₂).resp
        = .validationError "Invalid or used k1" ∧
    (withdrawCallback (withdrawCallback store k1 pr d₁ p₁).store k1 pr d₂ p₂).store
        = (withdrawCallback store k1 pr d₁ p₁).store := by
  by_cases he : validateWithdrawCallback k1 pr = []
  · rcases hg : getWithdrawal store (k1.getD "") with _ | w
    · simp [withdrawCallback, he, hg] at hok
    · rcases d₁ with e | amt
      · simp [withdrawCallback, withdrawRedeemPhase, he, hg] at hok
      · by_cases hr : isAmountInRange amt minWithdrawable maxWithdrawable = true
        · rcases p₁ with e | u
          · simp [withdrawCallback, withdrawRedeemPhase, he, hg, hr] at hok
          · have hstore :
                (withdrawCallback store k1 pr (Except.ok amt) (Except.ok u)).store
                  = updateWithdrawal store (k1.getD "") amt := by
              simp [withdrawCallback, withdrawRedeemPhase, he, hg, hr]
            rw [hstore]
            simp [withdrawCallback, he, getWithdrawal_updateWithdrawal]
        · simp [withdrawCallback, withdrawRedeemPhase, he, hg, hr] at hok
  · simp [withdrawCallback, he] at hok

/-- C1, witness: concrete run of the amended theorem — the first redemption
succeeds, the second fails with "Invalid or used k1". -/
theorem C1_amended_witness :
    (withdrawCallback [sampleWithdrawal] (some sampleK1) (some "lnbc1")
        (.ok 5000) (.ok ())).resp = WResp.ok ∧
    ((withdrawCallback
        (withdrawCallback [sampleWithdrawal] (some sampleK1) (some "lnbc1")
          (.ok 5000) (.ok ())).store
        (some sampleK1) (some "lnbc1") (.ok 7000) (.ok ())).resp
          = .validationError "Invalid or used k1" ∧
      (withdrawCallback
        (withdrawCallback [sampleWithdrawal] (some sampleK1) (some "lnbc1")
          (.ok 5000) (.ok ())).store
        (some sampleK1) (some "lnbc1") (.ok 7000) (.ok ())).store
          = (withdrawCallback [sampleWithdrawal] (some sampleK1) (some "lnbc1")
              (.ok 5000) (.ok ())).store) :=
  ⟨by decide,
    C1_amended [sampleWithdrawal] (some sampleK1) (some "lnbc1")
      (.ok 5000) (.ok ()) (.ok 7000) (.ok ()) (by decide)⟩

/-! ## C2 -/

/-- C2, counterexample: a withdraw callback whose invoice decodes to an
out-of-range amount (5 sats against bounds 1000–100000000) returns an error
but leaves the challenge UNUSED, so a subsequent redeem with the same `k1`
does not fail with "Invalid or used k1" — it succeeds, refuting "the
challenge is left in the consumed (used) state". -/
theorem C2_counterexample :
    (withdrawCallback [sampleWithdrawal] (some sampleK1) (some "lnbc1")
        (.ok 5) (.ok ())).resp
      = .payError "Payment failed: Amount out of range (1000 - 100000000 sats)" ∧
    (withdrawCallback
        (withdrawCallback [sampleWithdrawal] (some sampleK1) (some "lnbc1")
          (.ok 5) (.ok ())).store
        (some sampleK1) (some "lnbc1") (.ok 5000) (.ok ())).resp = .ok := by
  decide

/-- C2, amended: an invoice amount outside the configured bounds makes the
callback return an error response, and the challenge is left UNUSED (the
store is unchanged): a redeem with the same `k1` remains possible, because
the withdrawal is only marked used after a successful payment. -/
theorem C2_amended (store : List Withdrawal) (k1 pr : Option String)
    (w : Withdrawal) (amt : Int) (p : Except String Unit)
    (he : validateWithdrawCallback k1 pr = [])
    (hg : getWithdrawal store (k1.getD "") = some w)
    (hr : isAmountInRange amt minWithdrawable maxWithdrawable = false) :
    withdrawCallback store k1 pr (.ok amt) p =
      ⟨store, .payError "Payment failed: Amount out of range (1000 - 100000000 sats)",
        [k1.getD ""]⟩ ∧
    getWithdrawal ((withdrawCallback store k1 pr (.ok amt) p).store) (k1.getD "")
      = some w := by
  have h : withdrawCallback store k1 pr (.ok amt) p =
      ⟨store, .payError "Payment failed: Amount out of range (1000 - 100000000 sats)",
        [k1.getD ""]⟩ := by
    simp [withdrawCallback, withdrawRedeemPhase, he, hg, hr]
  exact ⟨h, by rw [h]; exact hg⟩

/-- C2, witness: concrete run of the amended theorem at amount 5. -/
theorem C2_amended_witness :
    withdrawCallback [sampleWithdrawal] (some sampleK1) (some "lnbc1")
        (.ok 5) (.ok ()) =
      ⟨[sampleWithdrawal],
        .payError "Payment failed: Amount out of range (1000 - 100000000 sats)",
        [sampleK1]⟩ ∧
    getWithdrawal ((withdrawCallback [sampleWithdrawal] (some sampleK1)
        (some "lnbc1") (.ok 5) (.ok ())).store) sampleK1 = some sampleWithdrawal :=
  C2_amended [sampleWithdrawal] (some sampleK1) (some "lnbc1") sampleWithdrawal 5
    (.ok ()) (by decide) (by decide) (by decide)

/-! ## C3 -/

/-- C3, counterexample: when the pay call fails, the withdraw token does NOT
remain spent — the store is untouched (the `used` flag is only written after
a successful pay), so a retry with the same `k1` succeeds, refuting "the
stored challenge is in the used state after the failure, so a retry with the
same k1 fails". -/
theorem C3_counterexample :
    (withdrawCallback [sampleWithdrawal] (some sampleK1) (some "lnbc1")
        (.ok 5000) (.error "no route")).resp
      = .payError "Payment failed: no route" ∧
    (withdrawCallback
        (withdrawCallback [sampleWithdrawal] (some sampleK1) (some "lnbc1")
          (.ok 5000) (.error "no route")).store
        (some sampleK1) (some "lnbc1") (.ok 5000) (.ok ())).resp = .ok := by
  decide

/-- C3, amended: if the outbound pay call fails, the withdrawal has not yet
been marked used — the callback returns "Payment failed: ..." with the store
unchanged, the challenge is still unused, and a retry with the same `k1` can
succeed. -/
theorem C3_amended (store : List Withdrawal) (k1 pr : Option String)
    (w : Withdrawal) (amt : Int) (e : String)
    (he : validateWithdrawCallback k1 pr = [])
    (hg : getWithdrawal store (k1.getD "") = some w)
    (hr : isAmountInRange amt minWithdrawable maxWithdrawable = true) :
    withdrawCallback store k1 pr (.ok amt) (.error e) =
      ⟨store, .payError ("Payment failed: " ++ e), [k1.getD ""]⟩ ∧
    getWithdrawal ((withdrawCallback store k1 pr (.ok amt) (.error e)).store)
      (k1.getD "") = some w := by
  have h : withdrawCallback store k1 pr (.ok amt) (.error e) =
      ⟨store, .payError ("Payment failed: " ++ e), [k1.getD ""]⟩ := by
    simp [withdrawCallback, withdrawRedeemPhase, he, hg, hr]
  exact ⟨h, by rw [h]; exact hg⟩

/-- C3, witness: concrete run of the amended theorem. -/
theorem C3_amended_witness :
    withdrawCallback [sampleWithdrawal] (some sampleK1) (some "lnbc1")
        (.ok 5000) (.error "no route") =
      ⟨[sampleWithdrawal], .payError "Payment failed: no route", [sampleK1]⟩ ∧
    getWithdrawal ((withdrawCallback [sampleWithdrawal] (some sampleK1)
        (some "lnbc1") (.ok 5000) (.error "no route")).store) sampleK1
      = some sampleWithdrawal :=
  C3_amended [sampleWithdrawal] (some sampleK1) (some "lnbc1") sampleWithdrawal
    5000 "no route" (by decide) (by decide) (by decide)

/-! ## C4 -/

/-- `updateChannelRequest` never changes the `completed` column. -/
lemma updateChannelRequest_completed (s : List ChannelRequest) (k r : String)
    (p : Bool) :
    (updateChannelRequest s k r p).map ChannelRequest.completed
      = s.map ChannelRequest.completed := by
  simp only [updateChannelRequest, List.map_map]
  apply List.map_congr_left
  intro c _
  by_cases h : c.k1 == k <;> simp [Function.comp, h]

/-- Sample 66-character remote node id (compressed pubkey format). -/
def sampleRemoteId : String :=
  "02aaaaaaaaaaaaaaaaaaaaaaaaaaaaaaaaaaaaaaaaaaaaaaaaaaaaaaaaaaaaaaaa"

/-- Sample pending channel request row. -/
def sampleChannelReq : ChannelRequest := ⟨"c1", sampleK1, none, false, false, false⟩

/-- C4, counterexample: a channel callback with a valid remote id on an
unused `k1` whose channel-open attempt FAILS answers `{status:'OK'}` but
leaves the `ChannelRequest` with `completed = false` (only `remote_id` is
recorded) — refuting "transitions to collected and then to completed ...
regardless of whether the open attempt succeeds or fails". -/
theorem C4_counterexample :
    routeChannelCallback [sampleChannelReq] (some sampleK1) (some sampleRemoteId)
        none none (.error "open failed")
      = ⟨[⟨"c1", sampleK1, some sampleRemoteId, false, false, false⟩],
          .ok, [sampleK1]⟩ := by
  decide

/-- C4, amended: on a valid remote id for an unused `k1`, the request is
marked collected (remote id and privacy flag recorded) and the HTTP response
is `{status:'OK'}` regardless of the open attempt's outcome; but the
`completed` transition happens only when the open attempt SUCCEEDS — a
failed attempt is merely logged and leaves every request's `completed`
column unchanged. -/
theorem C4_amended (store : List ChannelRequest)
    (k1 rid ip cancel : Option String) (c : ChannelRequest) (e : String)
    (he : validateChannelRequest k1 rid ip cancel = [])
    (hg : getChannelRequest store (k1.getD "") = some c)
    (hc : cancel ≠ some "1") :
    (∀ o : Except String Unit,
      (routeChannelCallback store k1 rid ip cancel o).resp = .ok) ∧
    (routeChannelCallback store k1 rid ip cancel (.ok ())).store
      = completeChannelRequest
          (updateChannelRequest store (k1.getD "") (rid.getD "")
            (decide (ip = some "1")))
          (k1.getD "") ∧
    (routeChannelCallback store k1 rid ip cancel (.error e)).store
      = updateChannelRequest store (k1.getD "") (rid.getD "")
          (decide (ip = some "1")) ∧
    ((routeChannelCallback store k1 rid ip cancel (.error e)).store.map
        ChannelRequest.completed)
      = store.map ChannelRequest.completed := by
  refine ⟨?_, ?_, ?_, ?_⟩
  · intro o
    rcases o with e' | u <;> simp [routeChannelCallback, he, hg, hc]
  · simp [routeChannelCallback, he, hg, hc]
  · simp [routeChannelCallback, he, hg, hc]
  · have h : (routeChannelCallback store k1 rid ip cancel (.error e)).store
        = updateChannelRequest store (k1.getD "") (rid.getD "")
            (decide (ip = some "1")) := by
      simp [routeChannelCallback, he, hg, hc]
    rw [h, updateChannelRequest_completed]

/-- C4, witness: concrete runs of the amended theorem with a failing and a
succeeding open attempt. -/
theorem C4_amended_witness :
    (∀ o : Except String Unit,
      (routeChannelCallback [sampleChannelReq] (some sampleK1)
        (some sampleRemoteId) none none o).resp = .ok) ∧
    (routeChannelCallback [sampleChannelReq] (some sampleK1)
        (some sampleRemoteId) none none (.ok ())).store
      = completeChannelRequest
          (updateChannelRequest [sampleChannelReq] sampleK1 sampleRemoteId
            (decide ((none : Option String) = some "1")))
          sampleK1 ∧
    (routeChannelCallback [sampleChannelReq] (some sampleK1)
        (some sampleRemoteId) none none (.error "open failed")).store
      = updateChannelRequest [sampleChannelReq] sampleK1 sampleRemoteId
          (decide ((none : Option String) = some "1")) ∧
    ((routeChannelCallback [sampleChannelReq] (some sampleK1)
        (some sampleRemoteId) none none (.error "open failed")).store.map
        ChannelRequest.completed)
      = [sampleChannelReq].map ChannelRequest.completed :=
  C4_amended [sampleChannelReq] (some sampleK1) (some sampleRemoteId) none none
    sampleChannelReq "open failed" (by decide) (by decide) (by decide)

/-! ## C5 -/

/-- `isValidAmount` holds exactly when `parseInt` of the raw amount yields a
positive integer. -/
lemma isValidAmount_iff (amount : Option String) :
    isValidAmount amount = true ↔
      ∃ n, amount.bind jsParseInt = some n ∧ 0 < n := by
  rcases amount with _ | s
  · simp [isValidAmount]
  · simp only [isValidAmount, Option.bind_some]
    rcases h : jsParseInt s with _ | n <;> simp [h]

/-- The code's comment check (skip falsy comments, else bound the length)
coincides with "whenever a comment is present its length is within the
configured maximum". -/
lemma commentOk_iff (comment : Option String) :
    (jsTruthy comment = false ∨ isValidComment comment commentAllowed = true) ↔
      (∀ c, comment = some c → c.length ≤ commentAllowed) := by
  rcases comment with _ | c
  · simp [jsTruthy]
  · by_cases hc : c = ""
    · subst hc
      simp [jsTruthy, isValidComment, commentAllowed]
    · simp [jsTruthy, isValidComment, hc]

/-- `validatePayCallback` returns no error exactly when the amount is valid
and the comment check passes. -/
lemma validatePayCallback_nil_iff (amount comment : Option String) :
    validatePayCallback amount comment = [] ↔
      (isValidAmount amount = true ∧
        (jsTruthy comment = false ∨ isValidComment comment commentAllowed = true)) := by
  cases ha : isValidAmount amount <;> cases hb : jsTruthy comment <;>
    cases hcm : isValidComment comment commentAllowed <;>
      simp [validatePayCallback, ha, hb, hcm]

/-- C5: a pay-flow callback is rejected with a `ValidationError` exactly
unless the amount parameter parses to a positive integer and any present
comment is within the configured maximum length; and when those conditions
hold (and the node call succeeds) the invoice is returned and a new invoice
record is stored — no validation error is raised. -/
theorem C5_pay_validation (store : List Payment) (pid : String)
    (amount comment : Option String) (invRes : Except String LnInvoice)
    (freshId : String) :
    ((∃ r, (payCallback store pid amount comment invRes freshId).2
        = .validationError r) ↔
      ¬((∃ n, amount.bind jsParseInt = some n ∧ 0 < n) ∧
        (∀ c, comment = some c → c.length ≤ commentAllowed))) ∧
    (∀ inv, invRes = .ok inv →
      (∃ n, amount.bind jsParseInt = some n ∧ 0 < n) →
      (∀ c, comment = some c → c.length ≤ commentAllowed) →
      (payCallback store pid amount comment invRes freshId).2
          = .pr inv.paymentRequest ∧
      ∃ rec, (payCallback store pid amount comment invRes freshId).1
          = store ++ [rec]) := by
  have key : validatePayCallback amount comment = [] ↔
      ((∃ n, amount.bind jsParseInt = some n ∧ 0 < n) ∧
        (∀ c, comment = some c → c.length ≤ commentAllowed)) :=
    (validatePayCallback_nil_iff amount comment).trans
      (and_congr (isValidAmount_iff amount) (commentOk_iff comment))
  by_cases hv : validatePayCallback amount comment = []
  · have hcond := key.mp hv
    refine ⟨⟨?_, fun h => absurd hcond h⟩, ?_⟩
    · rintro ⟨r, hr⟩
      rcases invRes with e | inv <;> simp [payCallback, hv] at hr
    · intro inv hinv _ _
      subst hinv
      refine ⟨by simp [payCallback, hv],
        ⟨⟨freshId, ((jsParseInt (amount.getD "")).getD 0).fdiv 1000,
          "LNURL Payment " ++ pid, inv.paymentHash, false,
          if jsTruthy comment = true then comment else none⟩, ?_⟩⟩
      simp [payCallback, hv, createPayment]
  · refine ⟨⟨fun _ hAB => hv (key.mpr hAB), fun _ => ?_⟩, ?_⟩
    · exact ⟨String.intercalate ", " (validatePayCallback amount comment),
        by simp [payCallback, hv]⟩
    · intro inv _ hA hB
      exact absurd (key.mpr ⟨hA, hB⟩) hv

/-- C5, witness: a valid amount of 21000 msat with comment "hi" creates a
21-sat invoice record and returns the encoded invoice. -/
theorem C5_pay_validation_witness :
    (payCallback [] "ab" (some "21000") (some "hi")
        (.ok ⟨"lnbcinv", "h1"⟩) "id1").2 = .pr "lnbcinv" ∧
    ∃ rec, (payCallback [] "ab" (some "21000") (some "hi")
        (.ok ⟨"lnbcinv", "h1"⟩) "id1").1 = [] ++ [rec] :=
  (C5_pay_validation [] "ab" (some "21000") (some "hi")
      (.ok ⟨"lnbcinv", "h1"⟩) "id1").2 ⟨"lnbcinv", "h1"⟩ rfl
    ⟨21000, by decide, by decide⟩
    (by intro c hc; simp at hc; subst hc; decide)

/-! ## C6 -/

/-- Sample unused auth challenge. -/
def sampleAuthChallenge : AuthChallenge := ⟨sampleK1, "login", false, 1000⟩

/-- C6: a verify call on an existing challenge whose DER import fails or
whose signature fails cryptographic verification returns an error response
and leaves both auth tables untouched — the challenge is not consumed — and
a later verify on the same `k1` with a correct signature (while the
challenge is still live) succeeds. -/
theorem C6_auth_failure_not_consumed (st : AuthState)
    (k1 sig key action : Option String) (now : Nat)
    (di : String → Option (List Nat))
    (ev : List Nat → String → String → Bool) (f1 f2 : String)
    (ch : AuthChallenge)
    (ht : (jsTruthy k1 && jsTruthy sig && jsTruthy key) = true)
    (hhex : (validateHexString k1 (some 64) && validateHexString sig none &&
        validateHexString key (some 66)) = true)
    (hch : getAuthChallenge st.challenges (k1.getD "") now = some ch)
    (hfail : di (sig.getD "") = none ∨
      ∃ cs, di (sig.getD "") = some cs ∧
        ev cs (k1.getD "") (key.getD "") = false) :
    ((∃ r, (authGet st k1 sig key action now di ev f1 f2).resp = .err r) ∧
      (authGet st k1 sig key action now di ev f1 f2).state = st) ∧
    (∀ (sig₂ action₂ : Option String) (now₂ : Nat)
        (di₂ : String → Option (List Nat))
        (ev₂ : List Nat → String → String → Bool) (f1' f2' : String),
      jsTruthy sig₂ = true → validateHexString sig₂ none = true →
      getAuthChallenge st.challenges (k1.getD "") now₂ = some ch →
      (∃ cs₂, di₂ (sig₂.getD "") = some cs₂ ∧
        ev₂ cs₂ (k1.getD "") (key.getD "") = true) →
      (authGet (authGet st k1 sig key action now di ev f1 f2).state
          k1 sig₂ key action₂ now₂ di₂ ev₂ f1' f2').resp
        = .ok f2' (key.getD "") ch.action) := by
  simp only [Bool.and_eq_true] at ht hhex
  obtain ⟨⟨hk1t, hsigt⟩, hkeyt⟩ := ht
  obtain ⟨⟨hk1x, hsigx⟩, hkeyx⟩ := hhex
  have hmain : (∃ r, (authGet st k1 sig key action now di ev f1 f2).resp = .err r) ∧
      (authGet st k1 sig key action now di ev f1 f2).state = st := by
    rcases hfail with hd | ⟨cs, hcs, hev⟩
    · exact ⟨⟨"Invalid DER signature",
        by simp [authGet, hk1t, hsigt, hkeyt, hk1x, hsigx, hkeyx, hch, hd]⟩,
        by simp [authGet, hk1t, hsigt, hkeyt, hk1x, hsigx, hkeyx, hch, hd]⟩
    · exact ⟨⟨"Invalid signature",
        by simp [authGet, hk1t, hsigt, hkeyt, hk1x, hsigx, hkeyx, hch, hcs, hev]⟩,
        by simp [authGet, hk1t, hsigt, hkeyt, hk1x, hsigx, hkeyx, hch, hcs, hev]⟩
  refine ⟨hmain, ?_⟩
  intro sig₂ action₂ now₂ di₂ ev₂ f1' f2' hsig₂t hsig₂x hch₂ ⟨cs₂, hcs₂, hev₂⟩
  rw [hmain.2]
  simp [authGet, hk1t, hsig₂t, hkeyt, hk1x, hsig₂x, hkeyx, hch₂, hcs₂, hev₂]

/-- C6, witness: a failed DER import on a live challenge leaves the state
unchanged and a corrected signature afterwards verifies successfully. -/
theorem C6_auth_failure_not_consumed_witness :
    ((∃ r, (authGet ⟨[sampleAuthChallenge], []⟩ (some sampleK1) (some "30")
        (some sampleRemoteId) none 0 (fun _ => none) (fun _ _ _ => false)
        "n1" "s1").resp = .err r) ∧
      (authGet ⟨[sampleAuthChallenge], []⟩ (some sampleK1) (some "30")
        (some sampleRemoteId) none 0 (fun _ => none) (fun _ _ _ => false)
        "n1" "s1").state = ⟨[sampleAuthChallenge], []⟩) ∧
    (authGet (authGet ⟨[sampleAuthChallenge], []⟩ (some sampleK1) (some "30")
          (some sampleRemoteId) none 0 (fun _ => none) (fun _ _ _ => false)
          "n1" "s1").state
        (some sampleK1) (some "31") (some sampleRemoteId) none 0
        (fun _ => some [1]) (fun _ _ _ => true) "n2" "s2").resp
      = .ok "s2" sampleRemoteId "login" :=
  have h := C6_auth_failure_not_consumed ⟨[sampleAuthChallenge], []⟩
    (some sampleK1) (some "30") (some sampleRemoteId) none 0
    (fun _ => none) (fun _ _ _ => false) "n1" "s1" sampleAuthChallenge
    (by decide) (by decide) (by decide) (Or.inl rfl)
  ⟨h.1, h.2 (some "31") none 0 (fun _ => some [1]) (fun _ _ _ => true)
    "n2" "s2" (by decide) (by decide) (by decide) ⟨[1], rfl, rfl⟩⟩

/-! ## C7 -/

/-- The refactored `validateHexString` with expected length 64 accepts
exactly the strings `isValidK1` accepts. -/
lemma validateHexString_64_eq_isValidK1 (k1 : Option String) :
    validateHexString k1 (some 64) = isValidK1 k1 := by
  rcases k1 with _ | s
  · rfl
  · by_cases h0 : s = ""
    · subst h0; simp [validateHexString, isValidK1]
    · by_cases hall : s.data.all isHexChar
      · by_cases hlen : s.length = 64 <;>
          simp [validateHexString, isValidK1, h0, hall, hlen]
      · simp [validateHexString, isValidK1, h0, hall]

/-- C7, counterexample: the monolithic `server.js` channel callback performs
the store lookup for a malformed `k1` ("zz" is not 64 hex characters) —
the request is answered only after a store read, refuting "for every
malformed k1 the request is rejected without performing a store read or
write". -/
theorem C7_counterexample :
    isValidK1 (some "zz") = false ∧
    (serverChannelCallback [] (some "zz") none none none).reads = ["zz"] := by
  decide

/-- C7, amended: the modular route handlers (withdraw callback, channel
callback, auth verify) do validate `k1` as a 64-character hex string before
any store access — a malformed `k1` is rejected with no store read and no
store write; the legacy monolithic `server.js` channel callback, however,
issues the store lookup without any format validation (see the
counterexample). -/
theorem C7_amended (k1 : Option String) (hk : isValidK1 k1 = false) :
    (∀ (store : List Withdrawal) (pr : Option String)
        (d : Except String Int) (p : Except String Unit),
      withdrawCallback store k1 pr d p =
        ⟨store,
          .validationError
            (String.intercalate ", " (validateWithdrawCallback k1 pr)), []⟩) ∧
    (∀ (store : List ChannelRequest) (rid ip cancel : Option String)
        (o : Except String Unit),
      routeChannelCallback store k1 rid ip cancel o =
        ⟨store,
          .err (String.intercalate ", " (validateChannelRequest k1 rid ip cancel)),
          []⟩) ∧
    (∀ (st : AuthState) (sig key action : Option String) (now : Nat)
        (di : String → Option (List Nat))
        (ev : List Nat → String → String → Bool) (f1 f2 : String),
      jsTruthy k1 = true → jsTruthy sig = true → jsTruthy key = true →
      authGet st k1 sig key action now di ev f1 f2 =
        ⟨st, .err "Invalid hex format for k1, sig, or key", []⟩) := by
  refine ⟨?_, ?_, ?_⟩
  · intro store pr d p
    have hne : validateWithdrawCallback k1 pr ≠ [] := by
      simp [validateWithdrawCallback, hk]
    simp [withdrawCallback, hne]
  · intro store rid ip cancel o
    have hne : validateChannelRequest k1 rid ip cancel ≠ [] := by
      by_cases hc : cancel = some "1" <;> simp [validateChannelRequest, hc, hk]
    simp [routeChannelCallback, hne]
  · intro st sig key action now di ev f1 f2 ht1 ht2 ht3
    have hx : validateHexString k1 (some 64) = false := by
      rw [validateHexString_64_eq_isValidK1]; exact hk
    simp [authGet, ht1, ht2, ht3, hx]

/-- C7, witness: the modular withdraw callback and the auth verify handler
reject the malformed `k1` value "zz" without touching the store. -/
theorem C7_amended_witness :
    isValidK1 (some "zz") = false ∧
    withdrawCallback [sampleWithdrawal] (some "zz") (some "lnbc1")
        (.ok 5000) (.ok ()) =
      ⟨[sampleWithdrawal],
        .validationError
          (String.intercalate ", "
            (validateWithdrawCallback (some "zz") (some "lnbc1"))), []⟩ ∧
    authGet ⟨[sampleAuthChallenge], []⟩ (some "zz") (some "30")
        (some sampleRemoteId) none 0 (fun _ => none) (fun _ _ _ => false)
        "f1" "f2" =
      ⟨⟨[sampleAuthChallenge], []⟩, .err "Invalid hex format for k1, sig, or key",
        []⟩ :=
  ⟨by decide,
    (C7_amended (some "zz") (by decide)).1 [sampleWithdrawal] (some "lnbc1")
      (.ok 5000) (.ok ()),
    (C7_amended (some "zz") (by decide)).2.2 ⟨[sampleAuthChallenge], []⟩
      (some "30") (some sampleRemoteId) none 0 (fun _ => none)
      (fun _ _ _ => false) "f1" "f2" (by decide) (by decide) (by decide)⟩

/-! ## C8 -/

/-- Filtering away a payment id twice is the same as filtering once. -/
lemma filter_ne_idem (l : List PaymentConfig) (pid : String) :
    (l.filter (fun c => c.paymentId ≠ pid)).filter (fun c => c.paymentId ≠ pid)
      = l.filter (fun c => c.paymentId ≠ pid) := by
  induction l with
  | nil => rfl
  | cons c l ih =>
    by_cases h : c.paymentId = pid <;> simp [List.filter_cons, h, ih]

/-- After filtering a payment id away, nothing with that id remains. -/
lemma filter_eq_after_ne (l : List PaymentConfig) (pid : String) :
    (l.filter (fun c => c.paymentId ≠ pid)).filter (fun c => c.paymentId = pid)
      = [] := by
  induction l with
  | nil => rfl
  | cons c l ih =>
    by_cases h : c.paymentId = pid <;> simp [List.filter_cons, h, ih]

/-- C8: Lightning-Address resolution is idempotent — the payment id is the
deterministic content hash of the username, resolving a second time leaves
the payment-config table exactly as after the first resolution, and the
table holds exactly one config for that id, with the configured bounds. -/
theorem C8_lightning_address_idempotent (store : List PaymentConfig)
    (username : String) (hash : String → String) :
    (wellKnownLnurlp store username hash).2 = hash username ∧
    (wellKnownLnurlp (wellKnownLnurlp store username hash).1 username hash).1
      = (wellKnownLnurlp store username hash).1 ∧
    ((wellKnownLnurlp store username hash).1.filter
        (fun c => c.paymentId = hash username))
      = [⟨hash username, minSendable, maxSendable, 100⟩] := by
  refine ⟨rfl, ?_, ?_⟩
  · simp [wellKnownLnurlp, createPaymentConfig, List.filter_append,
      filter_ne_idem]
  · simp [wellKnownLnurlp, createPaymentConfig, List.filter_append,
      filter_eq_after_ne]

/-! ## C10 -/

/-- C10, counterexample: a GET to the auth endpoint that supplies `k1` but
omits `sig` and `key` and carries the (invalid) action "foo" does not mint
any challenge: it returns "Invalid action parameter" and the store is
untouched — refuting "a brand-new random challenge in the requested (or
default 'login') action is minted, stored, and returned". -/
theorem C10_counterexample :
    authGet ⟨[], []⟩ (some sampleK1) none none (some "foo") 0
        (fun _ => none) (fun _ _ _ => false) "newk1" "sess"
      = ⟨⟨[], []⟩, .err "Invalid action parameter", []⟩ := by
  decide

/-- C10, amended: on a GET that omits `sig` or `key` (regardless of any
supplied `k1`), no signature verification is attempted and no stored
challenge is looked up or consumed; provided the requested action (default
"login") is one of the enumerated valid actions, a brand-new challenge under
the fresh nonce is minted, stored and returned — and the supplied `k1` value
is ignored entirely: the outcome is identical to the same request without a
`k1`.  (For an invalid action an error is returned, still without touching
the store.) -/
theorem C10_amended (st : AuthState) (k1 sig key action : Option String)
    (now : Nat) (di : String → Option (List Nat))
    (ev : List Nat → String → String → Bool) (f1 f2 : String)
    (hsk : ¬(jsTruthy sig = true ∧ jsTruthy key = true))
    (hact : validActions.contains
      (if jsTruthy action then action.getD "" else "login") = true) :
    authGet st k1 sig key action now di ev f1 f2 =
      ⟨⟨createAuthChallenge st.challenges f1
          (if jsTruthy action then action.getD "" else "login") now,
        st.sessions⟩,
        .challenge f1 (if jsTruthy action then action.getD "" else "login"),
        []⟩ ∧
    authGet st k1 sig key action now di ev f1 f2
      = authGet st none sig key action now di ev f1 f2 := by
  have hcond : ¬((jsTruthy k1 && jsTruthy sig && jsTruthy key) = true) := by
    simp only [Bool.and_eq_true]
    rintro ⟨⟨_, h2⟩, h3⟩
    exact hsk ⟨h2, h3⟩
  have hcond₂ : ¬((jsTruthy (none : Option String) && jsTruthy sig &&
      jsTruthy key) = true) := by
    simp [jsTruthy]
  have hact' : (if jsTruthy action = true then action.getD "" else "login")
      ∈ validActions := by
    simpa using hact
  constructor
  · simp [authGet, hcond, hact']
  · simp [authGet, hcond, hcond₂]

/-- C10, witness: with `k1` supplied but `sig`/`key` absent and no action
parameter, a fresh "login" challenge is minted and the supplied `k1` is
ignored. -/
theorem C10_amended_witness :
    authGet ⟨[], []⟩ (some sampleK1) none none none 5 (fun _ => none)
        (fun _ _ _ => false) "newk1" "sess"
      = ⟨⟨createAuthChallenge [] "newk1" "login" 5, []⟩,
          .challenge "newk1" "login", []⟩ ∧
    authGet ⟨[], []⟩ (some sampleK1) none none none 5 (fun _ => none)
        (fun _ _ _ => false) "newk1" "sess"
      = authGet ⟨[], []⟩ none none none none 5 (fun _ => none)
          (fun _ _ _ => false) "newk1" "sess" :=
  C10_amended ⟨[], []⟩ (some sampleK1) none none none 5 (fun _ => none)
    (fun _ _ _ => false) "newk1" "sess"
    (by rintro ⟨h, _⟩; simp [jsTruthy] at h) (by decide)

/-! ## C9 -/

/-- The ids of the records a reconciliation pass will mark: those of the
`todo` list that the node reports settled. -/
def settledIds (f : String → Option Bool) (todo : List Payment) : List String :=
  (todo.filter (fun p => f p.paymentHash = some true)).map Payment.id

/-- Mark a record paid when its id belongs to `ids`. -/
def markIds (ids : List String) (q : Payment) : Payment :=
  if q.id ∈ ids then { q with paid := true } else q

/-- `markIds` preserves ids. -/
lemma markIds_id (ids : List String) (q : Payment) :
    (markIds ids q).id = q.id := by
  unfold markIds; split <;> rfl

/-- `markIds` fixes already-paid records. -/
lemma markIds_of_paid {ids : List String} {q : Payment} (h : q.paid = true) :
    markIds ids q = q := by
  unfold markIds
  split
  · obtain ⟨qid, qa, qd, qh, qp, qc⟩ := q
    simp only at h
    subst h
    rfl
  · rfl

/-- Pointwise description of one reconciliation step composed with the
pending marks. -/
lemma markIds_step (A : List String) (i : String) (q : Payment) :
    markIds A (if q.id == i then { q with paid := true } else q)
      = markIds (i :: A) q := by
  by_cases hq : q.id = i
  · rw [if_pos (by simp [hq]), markIds_of_paid rfl]
    unfold markIds
    rw [if_pos (by simp [hq])]
  · rw [if_neg (by simp [hq])]
    unfold markIds
    simp [List.mem_cons, hq]

/-- The reconciliation fold marks exactly the settled ids of its todo list. -/
lemma foldl_settleStep_eq (f : String → Option Bool) (todo : List Payment) :
    ∀ st : List Payment,
      todo.foldl (settleStep f) st = st.map (markIds (settledIds f todo)) := by
  induction todo with
  | nil =>
    intro st
    have hall : ∀ q ∈ st, markIds ([] : List String) q = q := by
      intro q _
      unfold markIds
      simp
    simp only [List.foldl_nil]
    exact ((List.map_congr_left hall).trans (List.map_id _)).symm
  | cons p todo ih =>
    intro st
    rw [List.foldl_cons]
    have hstep : settleStep f st p
        = if f p.paymentHash = some true then updatePaymentPaid st p.id else st :=
      rfl
    by_cases hf : f p.paymentHash = some true
    · rw [hstep, if_pos hf, ih]
      have hset : settledIds f (p :: todo) = p.id :: settledIds f todo := by
        simp [settledIds, List.filter_cons, hf]
      rw [hset]
      simp only [updatePaymentPaid, List.map_map]
      apply List.map_congr_left
      intro q _
      simp only [Function.comp]
      exact markIds_step _ _ _
    · rw [hstep, if_neg hf, ih]
      have hset : settledIds f (p :: todo) = settledIds f todo := by
        simp [settledIds, List.filter_cons, hf]
      rw [hset]

/-- Closed form of a reconciliation pass. -/
lemma checkSettledInvoices_eq (s : List Payment) (f : String → Option Bool) :
    checkSettledInvoices s f
      = s.map (markIds (settledIds f (getUnpaidPayments s))) :=
  foldl_settleStep_eq f (getUnpaidPayments s) s

/-- `updatePaymentPaid` keeps every already-paid record unchanged and
present. -/
lemma mem_updatePaymentPaid_of_paid (s : List Payment) (i : String)
    {p : Payment} (hp : p ∈ s) (hpaid : p.paid = true) :
    p ∈ updatePaymentPaid s i := by
  have hfix : (if p.id == i then { p with paid := true } else p) = p := by
    split
    · obtain ⟨qid, qa, qd, qh, qp, qc⟩ := p
      simp only at hpaid
      subst hpaid
      rfl
    · rfl
  unfold updatePaymentPaid
  exact hfix ▸ List.mem_map_of_mem _ hp

/-- C9: the reconciliation pass is idempotent (a second pass against the
same settlement reports changes nothing, given the table's primary-key
uniqueness of record ids) and the paid flag is monotone: a record marked
paid stays in the table unchanged through any reconciliation pass and
through the status-query endpoint. -/
theorem C9_reconciler (s : List Payment) (f : String → Option Bool)
    (pid : String) (hnd : (s.map Payment.id).Nodup) :
    checkSettledInvoices (checkSettledInvoices s f) f
        = checkSettledInvoices s f ∧
    (∀ p ∈ s, p.paid = true → p ∈ checkSettledInvoices s f) ∧
    (∀ p ∈ s, p.paid = true → p ∈ (paymentStatus s pid f).1) := by
  have hmono : ∀ p ∈ s, p.paid = true → p ∈ checkSettledInvoices s f := by
    intro p hp hpaid
    rw [checkSettledInvoices_eq]
    exact (markIds_of_paid hpaid) ▸ List.mem_map_of_mem _ hp
  refine ⟨?_, hmono, ?_⟩
  · -- idempotence
    set A := settledIds f (getUnpaidPayments s) with hA
    have h1 : checkSettledInvoices s f = s.map (markIds A) :=
      checkSettledInvoices_eq s f
    rw [checkSettledInvoices_eq (checkSettledInvoices s f) f]
    have hfix : ∀ q ∈ checkSettledInvoices s f,
        markIds (settledIds f (getUnpaidPayments (checkSettledInvoices s f))) q
          = q := by
      intro q hq
      by_cases hB : q.id ∈ settledIds f (getUnpaidPayments (checkSettledInvoices s f))
      · exfalso
        obtain ⟨r, hr, hrid⟩ := List.mem_map.mp hB
        have hrfil := List.mem_filter.mp hr
        have hrset : f r.paymentHash = some true := by
          simpa using hrfil.2
        have hrunp := List.mem_filter.mp hrfil.1
        have hrpaid : r.paid = false := by
          simpa using hrunp.2
        have hrmem : r ∈ s.map (markIds A) := h1 ▸ hrunp.1
        have hqmem : q ∈ s.map (markIds A) := h1 ▸ hq
        obtain ⟨r₀, hr₀s, hr₀⟩ := List.mem_map.mp hrmem
        obtain ⟨q₀, hq₀s, hq₀⟩ := List.mem_map.mp hqmem
        have hid : r₀.id = q₀.id := by
          have h₁ : r.id = r₀.id := hr₀ ▸ markIds_id A r₀
          have h₂ : q.id = q₀.id := hq₀ ▸ markIds_id A q₀
          rw [← h₁, ← h₂, hrid]
        have hr₀q₀ : r₀ = q₀ := List.inj_on_of_nodup_map hnd hr₀s hq₀s hid
        have hrq : r = q := by rw [← hr₀, ← hq₀, hr₀q₀]
        -- q is unpaid and settled after the first pass
        have hqpaid : q.paid = false := hrq ▸ hrpaid
        have hqset : f q.paymentHash = some true := hrq ▸ hrset
        -- but then q was already marked by the first pass, contradiction
        have hqnotA : q₀.id ∉ A ∧ q = q₀ := by
          by_cases hin : q₀.id ∈ A
          · exfalso
            have hqt : q.paid = true := by
              rw [← hq₀]
              unfold markIds
              rw [if_pos hin]
            rw [hqpaid] at hqt
            exact Bool.false_ne_true hqt
          · exact ⟨hin, by rw [← hq₀]; unfold markIds; rw [if_neg hin]⟩
        have hq₀unp : q₀ ∈ getUnpaidPayments s := by
          apply List.mem_filter.mpr
          refine ⟨hq₀s, ?_⟩
          simp [← hqnotA.2, hqpaid]
        have : q₀.id ∈ A := by
          rw [hA]
          apply List.mem_map.mpr
          refine ⟨q₀, List.mem_filter.mpr ⟨hq₀unp, ?_⟩, rfl⟩
          simp [← hqnotA.2, hqset]
        exact hqnotA.1 this
      · unfold markIds
        rw [if_neg hB]
    exact (List.map_congr_left hfix).trans (List.map_id _)
  · -- status query monotone
    intro p hp hpaid
    unfold paymentStatus
    rcases hg : getPayment s pid with _ | q
    · simpa using hp
    · by_cases hq : q.paid
      · simp only [hq, if_true]
        exact hp
      · simp only [hq, if_false]
        rcases hs : f q.paymentHash with _ | b
        · exact hp
        · cases b
          · exact hp
          · exact mem_updatePaymentPaid_of_paid s pid hp hpaid

/-- C9, witness: a concrete two-record table (one paid, one unpaid) with a
node reporting the unpaid one settled. -/
theorem C9_reconciler_witness :
    (([⟨"p1", 5, "d", "h1", false, none⟩,
        ⟨"p2", 7, "d", "h2", true, none⟩] : List Payment).map Payment.id).Nodup ∧
    (checkSettledInvoices
        (checkSettledInvoices
          [⟨"p1", 5, "d", "h1", false, none⟩, ⟨"p2", 7, "d", "h2", true, none⟩]
          (fun h => if h == "h1" then some true else some false))
        (fun h => if h == "h1" then some true else some false)
      = checkSettledInvoices
          [⟨"p1", 5, "d", "h1", false, none⟩, ⟨"p2", 7, "d", "h2", true, none⟩]
          (fun h => if h == "h1" then some true else some false) ∧
    (∀ p ∈ ([⟨"p1", 5, "d", "h1", false, none⟩,
        ⟨"p2", 7, "d", "h2", true, none⟩] : List Payment), p.paid = true →
      p ∈ checkSettledInvoices
        [⟨"p1", 5, "d", "h1", false, none⟩, ⟨"p2", 7, "d", "h2", true, none⟩]
        (fun h => if h == "h1" then some true else some false)) ∧
    (∀ p ∈ ([⟨"p1", 5, "d", "h1", false, none⟩,
        ⟨"p2", 7, "d", "h2", true, none⟩] : List Payment), p.paid = true →
      p ∈ (paymentStatus
        [⟨"p1", 5, "d", "h1", false, none⟩, ⟨"p2", 7, "d", "h2", true, none⟩]
        "p1" (fun h => if h == "h1" then some true else some false)).1)) :=
  ⟨by decide,
    C9_reconciler
      [⟨"p1", 5, "d", "h1", false, none⟩, ⟨"p2", 7, "d", "h2", true, none⟩]
      (fun h => if h == "h1" then some true else some false) "p1" (by decide)⟩
